import Mathlib

/-!
Shallow embedding of the participant lifecycle store of `db.py`
(`class Storage`, async SQLite).  Each operation of the source runs a few
SQL statements inside one short transaction over one connection; the
embedding models the database as an explicit `DB` value and every
operation as a pure transformation of it.  The nondeterministic inputs of
an operation (`utc_now_iso()` timestamps, `secrets.token_urlsafe` tokens)
are passed as explicit arguments.  A raised Python exception is an
`Except.error`; every raise in the source happens before `commit`, so the
transaction is rolled back and the store is unchanged, which the
embedding renders by not returning a state on the error path.
-/

/-- SQL COALESCE on two arguments: the first operand when it is non-NULL,
otherwise the second. -/
def coalesce {α : Type} (a b : Option α) : Option α :=
  match a with
  | some x => some x
  | none => b

/-- Row of the `contests` table (`id` is the AUTOINCREMENT primary key,
`name` is UNIQUE). -/
structure Contest where
  id : Nat
  name : String
  created_at : String
  is_active : Bool
deriving DecidableEq

/-- Row of the `participants` table: the fields of the Python
`Participant` dataclass plus the `registered_ip` column, which the table
stores but the dataclass omits.  `uid` is the primary key. -/
structure Participant where
  uid : String
  token : String
  user_id : Int
  chat_id : Int
  username : Option String
  first_name : Option String
  last_name : Option String
  created_at : String
  registered_ip : Option String
  status : String
  decided_at : Option String
  decision : Option String
  decision_by : Option Int
  decision_note : Option String
  contest_id : Nat
deriving DecidableEq

/-- Submission payloads are Python dicts with string keys; the store never
interprets the values (`json.dumps` round-trips them opaquely), so they
are modelled as opaque strings in an insertion-ordered association list. -/
abbrev Payload := List (String × String)

/-- Python `k in dict` for a payload. -/
def hasKey (m : Payload) (k : String) : Bool :=
  m.any (fun kv => kv.fst == k)

/-- Python `dict.setdefault`: add `(k, v)` at the end only when `k` is
absent, leaving the dict unchanged otherwise. -/
def setdefault (m : Payload) (k v : String) : Payload :=
  if hasKey m k then m else m ++ [(k, v)]

/-- Row of the `submissions` table. -/
structure Submission where
  id : Nat
  uid : String
  received_at : String
  ip : Option String
  payload : Payload
  user_agent : Option String
deriving DecidableEq

/-- The SQLite database.  `contest_seq` and `submission_seq` are the
AUTOINCREMENT counters of the two surrogate keys (last id handed out). -/
structure DB where
  contests : List Contest
  contest_seq : Nat
  participants : List Participant
  submissions : List Submission
  submission_seq : Nat
deriving DecidableEq

/-- Python exceptions that the storage layer can raise. -/
inductive PyError where
  | valueError : String → PyError
  | integrityError : String → PyError
  | attributeError : String → PyError
  | assertionError : String → PyError
deriving DecidableEq

namespace Storage

/-- Embeds `Storage.get_active_contest_id`:
`SELECT id FROM contests WHERE is_active = 1 LIMIT 1`. -/
def get_active_contest_id (db : DB) : Option Nat :=
  (db.contests.find? (fun c => c.is_active)).map (fun c => c.id)

/-- Embeds `Storage.create_default_contest_if_not_exists`:
`INSERT OR IGNORE INTO contests (name, is_active) VALUES (Default Contest, 1)`.
`OR IGNORE` drops the insert exactly when the UNIQUE constraint on `name`
fires; otherwise the new row is inserted with `is_active = 1` as given,
whatever the other rows hold. -/
def create_default_contest_if_not_exists (db : DB) (now : String) : DB :=
  if db.contests.any (fun c => c.name == "Default Contest") then db
  else
    { db with
      contests := db.contests ++
        [{ id := db.contest_seq + 1, name := "Default Contest",
           created_at := now, is_active := true }],
      contest_seq := db.contest_seq + 1 }

/-- Embeds `Storage.create_contest`: in one transaction,
`UPDATE contests SET is_active = 0 WHERE is_active = 1`, then
`INSERT INTO contests (name, is_active) VALUES (?, 1)` and return
`last_insert_rowid()`.  A duplicate `name` violates the UNIQUE constraint,
so the insert raises and the whole uncommitted transaction (including the
deactivation) is rolled back. -/
def create_contest (db : DB) (name : String) (now : String) :
    Except PyError (DB × Nat) :=
  if db.contests.any (fun c => c.name == name) then
    .error (.integrityError "UNIQUE constraint failed: contests.name")
  else
    let new_contest_id := db.contest_seq + 1
    .ok ({ db with
           contests := (db.contests.map fun c => { c with is_active := false }) ++
             [{ id := new_contest_id, name := name, created_at := now,
                is_active := true }],
           contest_seq := new_contest_id }, new_contest_id)

/-- Embeds `Storage.register`.  The source resolves the active contest
(falling back to id 1 when `get_active_contest_id()` is falsy, i.e. `None`
or `0`), then `SELECT token FROM participants WHERE uid = ?`; when a row
with a truthy (non-empty) token exists it returns that token at once with
no write.  Otherwise it generates a fresh token (here the explicit
argument `freshToken`) and runs
`INSERT ... ON CONFLICT(uid) DO UPDATE SET user_id=excluded.user_id, ...,
last_name=excluded.last_name` — the conflict branch (reachable in the
source only through the duplicate-insert race) refreshes the five contact
fields, keeps the stored token, and the function still returns the fresh,
unstored token.  On a plain insert the UNIQUE constraint on `token` can
fire. -/
def register (db : DB) (uid : String) (user_id chat_id : Int)
    (username first_name last_name ip : Option String)
    (freshToken : String) (now : String) : Except PyError (DB × String) :=
  let active_contest_id :=
    match get_active_contest_id db with
    | some i => if i == 0 then 1 else i
    | none => 1
  match db.participants.find? (fun p => p.uid == uid) with
  | some row =>
    if row.token != "" then .ok (db, row.token)
    else
      .ok ({ db with
             participants := db.participants.map fun p =>
               if p.uid == uid then
                 { p with user_id := user_id, chat_id := chat_id,
                          username := username, first_name := first_name,
                          last_name := last_name }
               else p }, freshToken)
  | none =>
    if db.participants.any (fun p => p.token == freshToken) then
      .error (.integrityError "UNIQUE constraint failed: participants.token")
    else
      .ok ({ db with
             participants := db.participants ++
               [{ uid := uid, token := freshToken, user_id := user_id,
                  chat_id := chat_id, username := username,
                  first_name := first_name, last_name := last_name,
                  created_at := now, registered_ip := ip,
                  status := "registered", decided_at := none,
                  decision := none, decision_by := none,
                  decision_note := none,
                  contest_id := active_contest_id }] }, freshToken)

/-- Embeds `Storage.confirm`.  `SELECT token, status, decision, contest_id
... WHERE uid = ?`; raise `ValueError` `unknown_uid` when no row, raise
`ValueError` `bad_token` when the stored token differs from the given one
(exact string equality).  The check of `decision in (approved, rejected)` in the source is a no-op.  Then a submission row is inserted
with the payload annotated via `setdefault` with `uid` and `received_at`,
and the status is updated by
`SET status = CASE WHEN status IN (approved, rejected) THEN status ELSE
submitted_for_current_contest END`. -/
def confirm (db : DB) (uid token : String) (payload : Payload)
    (ip user_agent : Option String) (now : String) : Except PyError DB :=
  match db.participants.find? (fun p => p.uid == uid) with
  | none => .error (.valueError "unknown_uid")
  | some row =>
    if row.token != token then .error (.valueError "bad_token")
    else
      let payload := setdefault (setdefault payload "uid" uid) "received_at" now
      let sub : Submission :=
        { id := db.submission_seq + 1, uid := uid, received_at := now,
          ip := ip, payload := payload, user_agent := user_agent }
      .ok { db with
            submissions := db.submissions ++ [sub],
            submission_seq := db.submission_seq + 1,
            participants := db.participants.map fun q =>
              if q.uid == uid then
                { q with status :=
                    if q.status == "approved" || q.status == "rejected" then q.status
                    else "submitted_for_current_contest" }
              else q }

/-- Embeds `Storage.set_status_to_awaiting_approval`.
`SELECT status FROM participants WHERE uid = ? AND status =
submitted_for_current_contest`; when no row matches, return `None`.
When a row matches, the conditional UPDATE runs, and the source then reads
`db.rowcount` on the aiosqlite connection object.  Neither
`aiosqlite.Connection` nor the underlying `sqlite3.Connection` has a
`rowcount` attribute (row counts live on cursor objects), so that line
raises `AttributeError` before `commit`; closing the connection rolls the
UPDATE back, and the success branch that would re-read and return the
participant is unreachable. -/
def set_status_to_awaiting_approval (db : DB) (uid : String) :
    Except PyError (DB × Option Participant) :=
  match db.participants.find?
    (fun p => p.uid == uid && p.status == "submitted_for_current_contest") with
  | none => .ok (db, none)
  | some _ => .error (.attributeError "rowcount")

/-- Embeds `Storage.get_participant`: `SELECT ... WHERE uid = ?`. -/
def get_participant (db : DB) (uid : String) : Option Participant :=
  db.participants.find? (fun p => p.uid == uid)

/-- Embeds `Storage.decide`.  `action_norm` is `approved` exactly when
`action == approve`, else `rejected`; raise `ValueError` `unknown_uid`
when the uid is absent; when the stored `decision` is already `approved`
or `rejected` the original decision replaces `action_norm`.  The UPDATE
sets `status` and `decision` to `action_norm` and each of `decided_at`,
`decision_by`, `decision_note` to `COALESCE(current, new)`.  The function
finally re-selects the row and returns it. -/
def decide (db : DB) (uid : String) (action : String) (admin_id : Int)
    (note : Option String) (now : String) : Except PyError (DB × Participant) :=
  let action_norm := if action == "approve" then "approved" else "rejected"
  match db.participants.find? (fun p => p.uid == uid) with
  | none => .error (.valueError "unknown_uid")
  | some row =>
    let action_norm :=
      match row.decision with
      | some d => if d == "approved" || d == "rejected" then d else action_norm
      | none => action_norm
    let db' : DB :=
      { db with
        participants := db.participants.map fun p =>
          if p.uid == uid then
            { p with status := action_norm,
                     decision := some action_norm,
                     decided_at := coalesce p.decided_at (some now),
                     decision_by := coalesce p.decision_by (some admin_id),
                     decision_note := coalesce p.decision_note note }
          else p }
    match db'.participants.find? (fun p => p.uid == uid) with
    | some row2 => .ok (db', row2)
    | none => .error (.assertionError "row2 is not None")

end Storage

/-- Number of contests currently flagged active; the contest-registry
invariant of the spec is `countActive db ≤ 1`. -/
def countActive (db : DB) : Nat :=
  db.contests.countP (fun c => c.is_active)

/-- Terminal participant statuses, exactly the two strings that the guard
`CASE WHEN status IN (approved, rejected)` of the source tests. -/
def isTerminal (s : String) : Bool :=
  s == "approved" || s == "rejected"

/-- Auxiliary: `List.find?` commutes with mapping a function that does not
change the truth of the search predicate (the per-row UPDATE functions of
the embedding never touch `uid`). -/
theorem find?_map_pred {α : Type} (f : α → α) (pr : α → Bool)
    (l : List α) (h : ∀ x, pr (f x) = pr x) :
    (l.map f).find? pr = (l.find? pr).map f := by
  induction l with
  | nil => rfl
  | cons a t ih =>
    simp only [List.map_cons, List.find?, h a]
    cases hb : pr a with
    | true => rfl
    | false => simpa using ih

/-- Auxiliary: a per-row UPDATE keyed on `uid` commutes with the point
lookup on `uid` (the update functions of the embedding never change
`uid`). -/
theorem find?_keyed_update (ps : List Participant) (uid : String)
    (f : Participant → Participant) (hf : ∀ x, (f x).uid = x.uid) :
    (ps.map fun q => if q.uid == uid then f q else q).find? (fun p => p.uid == uid) =
      (ps.find? (fun p => p.uid == uid)).map fun q => if q.uid == uid then f q else q := by
  apply find?_map_pred
  intro x
  by_cases hx : (x.uid == uid) = true
  · rw [if_pos hx, hf, hx]
  · rw [if_neg hx]

/-- Auxiliary: confirm with a present uid and a mismatching token raises
`ValueError` `bad_token` before any write. -/
theorem confirm_bad_token (db : DB) (uid token : String) (payload : Payload)
    (ip ua : Option String) (now : String) (p : Participant)
    (hp : Storage.get_participant db uid = some p) (ht : p.token ≠ token) :
    Storage.confirm db uid token payload ip ua now =
      .error (.valueError "bad_token") := by
  unfold Storage.get_participant at hp
  unfold Storage.confirm
  rw [hp]
  simp [ht]

/-- Auxiliary: outcome of a successful confirm (uid present, token equal):
one submission row appended with the annotated payload, and the
conditional status UPDATE applied to the participant rows. -/
theorem confirm_ok_spec (db : DB) (uid token : String) (payload : Payload)
    (ip ua : Option String) (now : String) (p : Participant)
    (hp : Storage.get_participant db uid = some p) (ht : p.token = token) :
    Storage.confirm db uid token payload ip ua now = .ok
      { db with
        submissions := db.submissions ++
          [{ id := db.submission_seq + 1, uid := uid, received_at := now,
             ip := ip,
             payload := setdefault (setdefault payload "uid" uid) "received_at" now,
             user_agent := ua }],
        submission_seq := db.submission_seq + 1,
        participants := db.participants.map fun q =>
          if q.uid == uid then
            { q with status := if isTerminal q.status then q.status
                               else "submitted_for_current_contest" }
          else q } := by
  unfold Storage.get_participant at hp
  unfold Storage.confirm
  rw [hp]
  subst ht
  simp [isTerminal]

/-- Auxiliary: the row a point lookup sees after a successful confirm. -/
theorem get_participant_confirm (db : DB) (uid token : String) (payload : Payload)
    (ip ua : Option String) (now : String) (p : Participant) (db' : DB)
    (hp : Storage.get_participant db uid = some p)
    (hc : Storage.confirm db uid token payload ip ua now = .ok db') :
    Storage.get_participant db' uid = some
      { p with status := if isTerminal p.status then p.status
                         else "submitted_for_current_contest" } := by
  have hpu : (p.uid == uid) = true := by
    have h := hp
    unfold Storage.get_participant at h
    simpa using List.find?_some h
  by_cases ht : p.token = token
  · rw [confirm_ok_spec db uid token payload ip ua now p hp ht] at hc
    injection hc with h
    subst h
    unfold Storage.get_participant
    dsimp only
    rw [find?_keyed_update db.participants uid
        (fun q => { q with status := if isTerminal q.status then q.status
                                     else "submitted_for_current_contest" })
        (fun x => rfl)]
    have h2 := hp
    unfold Storage.get_participant at h2
    rw [h2, Option.map_some', if_pos hpu]
  · rw [confirm_bad_token db uid token payload ip ua now p hp ht] at hc
    exact absurd hc (by simp)

/-- Auxiliary: the per-row effect of the decide UPDATE once the action has
been normalised to `an`. -/
def decideUpd (an : String) (admin_id : Int) (note : Option String)
    (now : String) (q : Participant) : Participant :=
  { q with status := an, decision := some an,
           decided_at := coalesce q.decided_at (some now),
           decision_by := coalesce q.decision_by (some admin_id),
           decision_note := coalesce q.decision_note note }

/-- Auxiliary: decide on a row whose stored decision is already terminal
overrides the requested action with the original decision. -/
theorem decide_ok_of_decided (db : DB) (uid action : String) (admin_id : Int)
    (note : Option String) (now : String) (p : Participant) (d : String)
    (hp : Storage.get_participant db uid = some p) (hd : p.decision = some d)
    (hterm : isTerminal d = true) :
    Storage.decide db uid action admin_id note now = .ok
      ({ db with participants := db.participants.map fun q =>
           if q.uid == uid then decideUpd d admin_id note now q else q },
       decideUpd d admin_id note now p) := by
  have hpu : (p.uid == uid) = true := by
    have h := hp
    unfold Storage.get_participant at h
    simpa using List.find?_some h
  unfold Storage.get_participant at hp
  unfold Storage.decide
  rw [hp]
  dsimp only
  rw [hd]
  unfold isTerminal at hterm
  dsimp only
  rw [if_pos hterm]
  rw [find?_keyed_update db.participants uid
      (fun q => { q with status := d, decision := some d,
                         decided_at := coalesce q.decided_at (some now),
                         decision_by := coalesce q.decision_by (some admin_id),
                         decision_note := coalesce q.decision_note note })
      (fun x => rfl)]
  rw [hp, Option.map_some', if_pos hpu]
  dsimp only
  rfl

/-- Auxiliary: decide on a row with no stored decision normalises the
action by exact equality with `approve` and applies it. -/
theorem decide_ok_of_fresh (db : DB) (uid action : String) (admin_id : Int)
    (note : Option String) (now : String) (p : Participant)
    (hp : Storage.get_participant db uid = some p) (hd : p.decision = none) :
    Storage.decide db uid action admin_id note now = .ok
      ({ db with participants := db.participants.map fun q =>
           if q.uid == uid then
             (decideUpd (if action == "approve" then "approved" else "rejected")
               admin_id note now q)
           else q },
       decideUpd (if action == "approve" then "approved" else "rejected")
         admin_id note now p) := by
  have hpu : (p.uid == uid) = true := by
    have h := hp
    unfold Storage.get_participant at h
    simpa using List.find?_some h
  unfold Storage.get_participant at hp
  unfold Storage.decide
  rw [hp]
  dsimp only
  rw [hd]
  dsimp only
  rw [find?_keyed_update db.participants uid
      (fun q => { q with
                    status := if action == "approve" then "approved" else "rejected",
                    decision := some (if action == "approve" then "approved"
                                      else "rejected"),
                    decided_at := coalesce q.decided_at (some now),
                    decision_by := coalesce q.decision_by (some admin_id),
                    decision_note := coalesce q.decision_note note })
      (fun x => rfl)]
  rw [hp, Option.map_some', if_pos hpu]
  dsimp only
  rfl

/-- Auxiliary: register on a uid whose row already holds a non-empty token
returns that token with no write at all. -/
theorem register_existing (db : DB) (uid : String) (user_id chat_id : Int)
    (username first_name last_name ip : Option String) (tok now : String)
    (p : Participant) (hp : Storage.get_participant db uid = some p)
    (ht : p.token ≠ "") :
    Storage.register db uid user_id chat_id username first_name last_name ip
      tok now = .ok (db, p.token) := by
  unfold Storage.get_participant at hp
  unfold Storage.register
  rw [hp]
  simp [ht]

/-- Auxiliary: every `Except.ok` outcome of the promote operation carries
the unchanged store and `none` (the success branch of the source is cut
off by the `AttributeError`). -/
theorem promote_ok_none (db : DB) (uid : String) (db' : DB)
    (r : Option Participant)
    (h : Storage.set_status_to_awaiting_approval db uid = .ok (db', r)) :
    db' = db ∧ r = none := by
  unfold Storage.set_status_to_awaiting_approval at h
  split at h
  · injection h with h2
    exact ⟨(congrArg Prod.fst h2).symm, (congrArg Prod.snd h2).symm⟩
  · exact Except.noConfusion h

/-- Fixture: the seeded default contest. -/
def contest1 : Contest :=
  { id := 1, name := "Default Contest", created_at := "t0", is_active := true }

/-- Fixture: a freshly registered participant; the concrete states below
are record updates of it. -/
def participant0 : Participant :=
  { uid := "u0", token := "T0", user_id := 10, chat_id := 20,
    username := some "alice", first_name := some "A", last_name := none,
    created_at := "t0", registered_ip := some "1.2.3.4",
    status := "registered", decided_at := none, decision := none,
    decision_by := none, decision_note := none, contest_id := 1 }

/-- Fixture: a one-contest database holding the given participants. -/
def mkDB (ps : List Participant) : DB :=
  { contests := [contest1], contest_seq := 1, participants := ps,
    submissions := [], submission_seq := 0 }

/-- Fixture for C1: a participant already promoted to the moderation
queue. -/
def pAwait : Participant :=
  { participant0 with uid := "u1", token := "T1", status := "awaiting_approval" }

/-- Fixture: the C1 database after the downgrading confirm call. -/
def dbAwaitConfirmed : DB :=
  { contests := [contest1], contest_seq := 1,
    participants := [{ pAwait with status := "submitted_for_current_contest" }],
    submissions := [{ id := 1, uid := "u1", received_at := "t1", ip := none,
                      payload := [("uid", "u1"), ("received_at", "t1")],
                      user_agent := none }],
    submission_seq := 1 }

/-- Fixture: a participant already approved with all decision fields set. -/
def pDecided : Participant :=
  { participant0 with
    uid := "u9", token := "T9", status := "approved",
    decided_at := some "t2", decision := some "approved",
    decision_by := some 5, decision_note := some "ok" }

/-- Claim C1, counterexample: a participant whose status is
`awaiting_approval` is moved back to `submitted_for_current_contest` by a
successful confirm, so the stored status does move to an earlier state and
the confirm status transition is not a no-op past
`submitted_for_current_contest`. -/
theorem C1_counterexample :
    pAwait.status = "awaiting_approval" ∧
    ∃ db', Storage.confirm (mkDB [pAwait]) "u1" "T1" [] none none "t1" = .ok db' ∧
      (Storage.get_participant db' "u1").map Participant.status =
        some "submitted_for_current_contest" :=
  ⟨rfl, _, rfl, rfl⟩

/-- Claim C1, amended: terminal statuses are absorbing — register on an
existing uid, confirm, promote and decide (on a row whose stored decision
records its terminal status, as every decided row has) never change a
terminal status — but the confirm status transition is not a no-op past
`submitted_for_current_contest`: a successful confirm sets every
non-terminal status, including `awaiting_approval`, back to
`submitted_for_current_contest`. -/
theorem C1_amended_theorem :
    (∀ (db : DB) (uid token : String) (payload : Payload)
       (ip ua : Option String) (now : String) (p : Participant) (db' : DB),
       Storage.get_participant db uid = some p →
       Storage.confirm db uid token payload ip ua now = .ok db' →
       (Storage.get_participant db' uid).map Participant.status =
         some (if isTerminal p.status then p.status
               else "submitted_for_current_contest")) ∧
    (∀ (db : DB) (uid : String) (db' : DB) (r : Option Participant),
       Storage.set_status_to_awaiting_approval db uid = .ok (db', r) →
       db' = db ∧ r = none) ∧
    (∀ (db : DB) (uid action : String) (admin_id : Int) (note : Option String)
       (now : String) (p : Participant) (db' : DB) (p' : Participant),
       Storage.get_participant db uid = some p →
       p.decision = some p.status → isTerminal p.status = true →
       Storage.decide db uid action admin_id note now = .ok (db', p') →
       p'.status = p.status) ∧
    (∀ (db : DB) (uid : String) (user_id chat_id : Int)
       (username first_name last_name ip : Option String) (tok now : String)
       (p : Participant) (db' : DB) (t : String),
       Storage.get_participant db uid = some p → p.token ≠ "" →
       Storage.register db uid user_id chat_id username first_name last_name ip
         tok now = .ok (db', t) →
       db' = db) := by
  refine ⟨?_, ?_, ?_, ?_⟩
  · intro db uid token payload ip ua now p db' hp hc
    rw [get_participant_confirm db uid token payload ip ua now p db' hp hc]
    rfl
  · intro db uid db' r h
    exact promote_ok_none db uid db' r h
  · intro db uid action admin_id note now p db' p' hp hd hterm hdec
    rw [decide_ok_of_decided db uid action admin_id note now p p.status hp hd
        hterm] at hdec
    injection hdec with h2
    have h3 : p' = decideUpd p.status admin_id note now p :=
      (congrArg Prod.snd h2).symm
    rw [h3]
    rfl
  · intro db uid user_id chat_id username first_name last_name ip tok now p db'
      t hp ht hr
    rw [register_existing db uid user_id chat_id username first_name last_name
        ip tok now p hp ht] at hr
    injection hr with h2
    exact (congrArg Prod.fst h2).symm

/-- Claim C1, amended, witness: the four parts of the amended theorem
instantiated — the confirm part at the `awaiting_approval` participant,
the promote part at a non-matching row, the decide part at an approved
participant asked to be rejected, the register part at an existing uid. -/
theorem C1_amended_witness :
    (Storage.get_participant dbAwaitConfirmed "u1").map Participant.status =
      some (if isTerminal pAwait.status then pAwait.status
            else "submitted_for_current_contest") ∧
    (mkDB [pAwait] = mkDB [pAwait] ∧ (none : Option Participant) = none) ∧
    (decideUpd "approved" 9 (some "n2") "t3" pDecided).status = pDecided.status ∧
    mkDB [pAwait] = mkDB [pAwait] :=
  ⟨C1_amended_theorem.1 (mkDB [pAwait]) "u1" "T1" [] none none "t1" pAwait
      dbAwaitConfirmed rfl rfl,
   C1_amended_theorem.2.1 (mkDB [pAwait]) "u1" (mkDB [pAwait]) none rfl,
   C1_amended_theorem.2.2.1 (mkDB [pDecided]) "u9" "reject" 9 (some "n2") "t3"
      pDecided
      { mkDB [pDecided] with
        participants := [decideUpd "approved" 9 (some "n2") "t3" pDecided] }
      (decideUpd "approved" 9 (some "n2") "t3" pDecided)
      rfl (by decide) (by decide) rfl,
   C1_amended_theorem.2.2.2 (mkDB [pAwait]) "u1" 11 22 (some "bob") none none
      (some "9.9.9.9") "NEWTOK" "t4" pAwait (mkDB [pAwait]) "T1" rfl
      (by decide) rfl⟩

/-- Fixture for C2: a participant in `submitted_for_current_contest`. -/
def pSub2 : Participant :=
  { participant0 with
    uid := "u4", token := "T4", status := "submitted_for_current_contest" }

/-- Claim C2, code behaviour at the failing input: with the participant in
status `submitted_for_current_contest` — exactly the case in which the
claim promises the updated participant back — the promote operation
raises `AttributeError` (the source reads `db.rowcount` on the connection
object, which has no such attribute) and the UPDATE is rolled back.  With
the participant in any other status it does return `none` as claimed. -/
theorem C2_code_behavior :
    (Storage.get_participant (mkDB [pSub2]) "u4").map Participant.status =
      some "submitted_for_current_contest" ∧
    Storage.set_status_to_awaiting_approval (mkDB [pSub2]) "u4" =
      .error (.attributeError "rowcount") ∧
    Storage.set_status_to_awaiting_approval (mkDB [pAwait]) "u1" =
      .ok (mkDB [pAwait], none) :=
  ⟨rfl, rfl, rfl⟩

/-- Fixtures for C8: the same participant as seen by the first poller
(still submitted) and as seen by a later poller (already promoted). -/
def pSub8 : Participant :=
  { participant0 with
    uid := "u5", token := "T5", status := "submitted_for_current_contest" }

/-- Fixture for C8: the promoted variant of `pSub8`. -/
def pAw8 : Participant :=
  { pSub8 with status := "awaiting_approval" }

/-- Claim C8, code behaviour: a caller that finds the row still in
`submitted_for_current_contest` raises `AttributeError` instead of
observing success, and a caller that sees any other status observes
`none`; together with `promote_ok_none` (every `ok` outcome carries
`none`), no caller of a concurrent group can ever observe a non-none
participant, so "exactly one caller observes success" fails. -/
theorem C8_code_behavior :
    Storage.set_status_to_awaiting_approval (mkDB [pSub8]) "u5" =
      .error (.attributeError "rowcount") ∧
    Storage.set_status_to_awaiting_approval (mkDB [pAw8]) "u5" =
      .ok (mkDB [pAw8], none) :=
  ⟨rfl, rfl⟩

/-- Fixture for C3: an undecided participant in the moderation queue. -/
def pFresh3 : Participant :=
  { participant0 with
    uid := "u2", token := "T2", status := "awaiting_approval" }

/-- Fixture: C3 row after the first decision (approve, null note). -/
def p3_first : Participant := decideUpd "approved" 1 none "t1" pFresh3

/-- Fixture: C3 database after the first decision. -/
def db3_first : DB := { mkDB [pFresh3] with participants := [p3_first] }

/-- Fixture: C3 row after the second decision (reject attempt with a
note). -/
def p3_second : Participant :=
  decideUpd "approved" 9 (some "second note") "t2" p3_first

/-- Fixture: C3 database after the second decision. -/
def db3_second : DB := { db3_first with participants := [p3_second] }

/-- Claim C3, counterexample: after a first decision made with a null
note, a later decide with the opposite action does return the original
decision, but `decision_note` does not keep its first-set value (null): it
is overwritten with the later note via COALESCE. -/
theorem C3_counterexample :
    Storage.decide (mkDB [pFresh3]) "u2" "approve" 1 none "t1" =
      .ok (db3_first, p3_first) ∧
    p3_first.decision = some "approved" ∧ p3_first.decision_note = none ∧
    Storage.decide db3_first "u2" "reject" 9 (some "second note") "t2" =
      .ok (db3_second, p3_second) ∧
    p3_second.decision = some "approved" ∧
    p3_second.decision_note = some "second note" :=
  ⟨rfl, rfl, rfl, rfl, rfl, rfl⟩

/-- Claim C3, amended: on a participant with a terminal decision `d`, a
later decide with any action returns the original decision — `status` and
`decision` are set to `d`, not to the requested action — and `decided_at`,
`decision_by`, `decision_note` are each written with set-only-if-null
(COALESCE) semantics: a field keeps its stored value whenever that value
is non-null, while a field that is still null (in practice only
`decision_note`, when the first decision carried no note) takes the value
of the new call. -/
theorem C3_amended_theorem (db : DB) (uid action : String) (admin_id : Int)
    (note : Option String) (now : String) (p : Participant) (d : String)
    (hp : Storage.get_participant db uid = some p)
    (hd : p.decision = some d) (hterm : isTerminal d = true) :
    Storage.decide db uid action admin_id note now = .ok
      ({ db with participants := db.participants.map fun q =>
           if q.uid == uid then decideUpd d admin_id note now q else q },
       decideUpd d admin_id note now p) ∧
    (decideUpd d admin_id note now p).status = d ∧
    (decideUpd d admin_id note now p).decision = some d ∧
    (decideUpd d admin_id note now p).decided_at =
      coalesce p.decided_at (some now) ∧
    (decideUpd d admin_id note now p).decision_by =
      coalesce p.decision_by (some admin_id) ∧
    (decideUpd d admin_id note now p).decision_note =
      coalesce p.decision_note note :=
  ⟨decide_ok_of_decided db uid action admin_id note now p d hp hd hterm,
   rfl, rfl, rfl, rfl, rfl⟩

/-- Claim C3, amended, witness: the amended theorem instantiated at the
fully decided participant `pDecided` asked to be rejected. -/
theorem C3_amended_witness :
    Storage.decide (mkDB [pDecided]) "u9" "reject" 9 (some "n2") "t3" = .ok
      ({ mkDB [pDecided] with
         participants := [decideUpd "approved" 9 (some "n2") "t3" pDecided] },
       decideUpd "approved" 9 (some "n2") "t3" pDecided) ∧
    (decideUpd "approved" 9 (some "n2") "t3" pDecided).status = "approved" ∧
    (decideUpd "approved" 9 (some "n2") "t3" pDecided).decision =
      some "approved" ∧
    (decideUpd "approved" 9 (some "n2") "t3" pDecided).decided_at =
      coalesce pDecided.decided_at (some "t3") ∧
    (decideUpd "approved" 9 (some "n2") "t3" pDecided).decision_by =
      coalesce pDecided.decision_by (some 9) ∧
    (decideUpd "approved" 9 (some "n2") "t3" pDecided).decision_note =
      coalesce pDecided.decision_note (some "n2") :=
  C3_amended_theorem (mkDB [pDecided]) "u9" "reject" 9 (some "n2") "t3"
    pDecided "approved" rfl (by decide) (by decide)

/-- Fixture for C4: an existing registered participant whose stored
username is `alice`. -/
def pReg4 : Participant :=
  { participant0 with uid := "u3", token := "T3" }

/-- Claim C4, counterexample: registering an existing uid again with a new
username returns the stored token, but the whole store — the contact
metadata included — is left byte-for-byte unchanged: the stored username
stays `alice`, it is not refreshed to `bob`. -/
theorem C4_counterexample :
    Storage.register (mkDB [pReg4]) "u3" 11 22 (some "bob") none none none
      "NEWTOK" "t9" = .ok (mkDB [pReg4], "T3") ∧
    (Storage.get_participant (mkDB [pReg4]) "u3").map Participant.username =
      some (some "alice") ∧
    (some "alice" : Option String) ≠ some "bob" :=
  ⟨rfl, rfl, by decide⟩

/-- Claim C4, amended: for every uid that already exists (its stored token
being non-empty, as every generated token is), register returns the
existing token unchanged regardless of the other arguments and performs no
write at all — the contact metadata is not refreshed; the refreshing
upsert of the source is reachable only through the concurrent
duplicate-insert race. -/
theorem C4_amended_theorem (db : DB) (uid : String) (user_id chat_id : Int)
    (username first_name last_name ip : Option String) (tok now : String)
    (p : Participant) (hp : Storage.get_participant db uid = some p)
    (ht : p.token ≠ "") :
    Storage.register db uid user_id chat_id username first_name last_name ip
      tok now = .ok (db, p.token) :=
  register_existing db uid user_id chat_id username first_name last_name ip
    tok now p hp ht

/-- Claim C4, amended, witness: re-registering `u3` with username `carol`
returns the stored token `T3` and the unchanged store. -/
theorem C4_amended_witness :
    Storage.register (mkDB [pReg4]) "u3" 11 22 (some "carol") none none none
      "NT2" "t9" = .ok (mkDB [pReg4], "T3") :=
  C4_amended_theorem (mkDB [pReg4]) "u3" 11 22 (some "carol") none none none
    "NT2" "t9" pReg4 rfl (by decide)

/-- Fixture for C5: an active contest that is not the default one. -/
def contestX : Contest :=
  { id := 1, name := "Contest X", created_at := "t0", is_active := true }

/-- Fixture for C5: a registry whose only (active) contest is
`Contest X`. -/
def dbX : DB :=
  { contests := [contestX], contest_seq := 1, participants := [],
    submissions := [], submission_seq := 0 }

/-- Fixture for C5: an empty registry. -/
def dbEmpty : DB :=
  { contests := [], contest_seq := 0, participants := [],
    submissions := [], submission_seq := 0 }

/-- Fixture for C5: the registry after creating and activating
`Contest Y` on top of `dbX`. -/
def dbXY : DB :=
  { contests := [{ contestX with is_active := false },
                 { id := 2, name := "Contest Y", created_at := "t2",
                   is_active := true }],
    contest_seq := 2, participants := [], submissions := [],
    submission_seq := 0 }

/-- Claim C5, counterexample: seeding the default contest while a contest
named differently is active inserts a second active contest — the
`INSERT OR IGNORE` only backs off when a contest named `Default Contest`
already exists, not when some other contest is active. -/
theorem C5_counterexample :
    countActive dbX = 1 ∧
    countActive (Storage.create_default_contest_if_not_exists dbX "t1") = 2 :=
  ⟨rfl, rfl⟩

/-- Claim C5, amended: createContest always leaves exactly one active
contest (the deactivation and the activating insert are one transaction);
seeding the default contest is a no-op when a contest named
`Default Contest` already exists, and yields at most one active contest
when no contest is active — but it does not preserve the invariant from
every state (see the counterexample). -/
theorem C5_amended_theorem :
    (∀ (db : DB) (name now : String) (db' : DB) (i : Nat),
       Storage.create_contest db name now = .ok (db', i) →
       countActive db' = 1) ∧
    (∀ (db : DB) (now : String),
       db.contests.any (fun c => c.name == "Default Contest") = true →
       Storage.create_default_contest_if_not_exists db now = db) ∧
    (∀ (db : DB) (now : String), countActive db = 0 →
       countActive (Storage.create_default_contest_if_not_exists db now) ≤ 1) := by
  refine ⟨?_, ?_, ?_⟩
  · intro db name now db' i h
    unfold Storage.create_contest at h
    split at h
    · exact Except.noConfusion h
    · injection h with h2
      have hdb : db' =
          { db with
            contests := (db.contests.map fun c => { c with is_active := false }) ++
              [{ id := db.contest_seq + 1, name := name, created_at := now,
                 is_active := true }],
            contest_seq := db.contest_seq + 1 } :=
        (congrArg Prod.fst h2).symm
      subst hdb
      unfold countActive
      dsimp only
      rw [List.countP_append]
      have hz : ∀ l : List Contest,
          (l.map fun c => { c with is_active := false }).countP
            (fun c => c.is_active) = 0 := by
        intro l
        induction l with
        | nil => rfl
        | cons a t ih => simp [List.countP_cons, ih]
      rw [hz]
      rfl
  · intro db now h
    unfold Storage.create_default_contest_if_not_exists
    rw [if_pos h]
  · intro db now h0
    unfold Storage.create_default_contest_if_not_exists
    by_cases hc : (db.contests.any fun c => c.name == "Default Contest") = true
    · rw [if_pos hc]
      omega
    · rw [if_neg hc]
      unfold countActive at h0 ⊢
      dsimp only
      rw [List.countP_append, h0]
      simp [List.countP_cons]

/-- Claim C5, amended, witness: the three parts instantiated — creating
`Contest Y` over `dbX` leaves one active contest, seeding over a registry
that already holds `Default Contest` is a no-op, and seeding an empty
registry leaves at most one active contest. -/
theorem C5_amended_witness :
    countActive dbXY = 1 ∧
    Storage.create_default_contest_if_not_exists (mkDB []) "t1" = mkDB [] ∧
    countActive (Storage.create_default_contest_if_not_exists dbEmpty "t1") ≤ 1 :=
  ⟨C5_amended_theorem.1 dbX "Contest Y" "t2" dbXY 2 rfl,
   C5_amended_theorem.2.1 (mkDB []) "t1" rfl,
   C5_amended_theorem.2.2 dbEmpty "t1" rfl⟩

/-- Claim C6: confirm on a uid absent from the store raises
UnknownParticipantError (`ValueError` with message `unknown_uid`), and
confirm on a registered uid with a token that is not exactly string-equal
to the stored token raises TokenMismatchError (`ValueError` with message
`bad_token`); both raises happen before the submission INSERT and the
status UPDATE, so the error outcome carries no state change (the
embedding returns no new state on errors for exactly that reason). -/
theorem C6_theorem :
    (∀ (db : DB) (uid token : String) (payload : Payload)
       (ip ua : Option String) (now : String),
       Storage.get_participant db uid = none →
       Storage.confirm db uid token payload ip ua now =
         .error (.valueError "unknown_uid")) ∧
    (∀ (db : DB) (uid token : String) (payload : Payload)
       (ip ua : Option String) (now : String) (p : Participant),
       Storage.get_participant db uid = some p → p.token ≠ token →
       Storage.confirm db uid token payload ip ua now =
         .error (.valueError "bad_token")) := by
  constructor
  · intro db uid token payload ip ua now h
    unfold Storage.get_participant at h
    unfold Storage.confirm
    rw [h]
  · intro db uid token payload ip ua now p hp ht
    exact confirm_bad_token db uid token payload ip ua now p hp ht

/-- Claim C6, witness: an unknown uid and a wrong token against the
registered participant `u3`, both rejected with the typed errors. -/
theorem C6_witness :
    Storage.confirm (mkDB [pReg4]) "zz" "T3" [] none none "t1" =
      .error (.valueError "unknown_uid") ∧
    Storage.confirm (mkDB [pReg4]) "u3" "bad" [] none none "t1" =
      .error (.valueError "bad_token") :=
  ⟨C6_theorem.1 (mkDB [pReg4]) "zz" "T3" [] none none "t1" rfl,
   C6_theorem.2 (mkDB [pReg4]) "u3" "bad" [] none none "t1" pReg4 rfl
     (by decide)⟩

/-- Claim C7: a confirm with the correct token on a participant whose
status is terminal still appends one submission row — its payload is the
given payload annotated via `setdefault` with `uid` and `received_at`,
added only when those keys are absent — and the participant row, its
status included, is left untouched. -/
theorem C7_theorem (db : DB) (uid token : String) (payload : Payload)
    (ip ua : Option String) (now : String) (p : Participant)
    (hp : Storage.get_participant db uid = some p) (ht : p.token = token)
    (hterm : isTerminal p.status = true) :
    (Storage.confirm db uid token payload ip ua now).map DB.submissions =
      .ok (db.submissions ++
        [{ id := db.submission_seq + 1, uid := uid, received_at := now,
           ip := ip,
           payload := setdefault (setdefault payload "uid" uid) "received_at" now,
           user_agent := ua }]) ∧
    (Storage.confirm db uid token payload ip ua now).map
        (fun db' => Storage.get_participant db' uid) = .ok (some p) := by
  have hs := confirm_ok_spec db uid token payload ip ua now p hp ht
  have hg := get_participant_confirm db uid token payload ip ua now p _ hp hs
  constructor
  · rw [hs]
    rfl
  · rw [hs]
    simp only [Except.map]
    rw [hg, if_pos hterm]

/-- Claim C7, witness: confirming the approved participant `u9` with the
right token appends the annotated submission and leaves the row intact. -/
theorem C7_witness :
    (Storage.confirm (mkDB [pDecided]) "u9" "T9" [("k", "1")] none none
        "t7").map DB.submissions =
      .ok [{ id := 1, uid := "u9", received_at := "t7", ip := none,
             payload := [("k", "1"), ("uid", "u9"), ("received_at", "t7")],
             user_agent := none }] ∧
    (Storage.confirm (mkDB [pDecided]) "u9" "T9" [("k", "1")] none none
        "t7").map (fun db' => Storage.get_participant db' "u9") =
      .ok (some pDecided) := by
  have h := C7_theorem (mkDB [pDecided]) "u9" "T9" [("k", "1")] none none "t7"
    pDecided rfl rfl (by decide)
  exact ⟨h.1, h.2⟩

/-- Fixture for C9 and C10: a participant still in status `registered`
with no decision recorded. -/
def pFresh9 : Participant :=
  { participant0 with uid := "u6", token := "T6" }

/-- Claim C9: on a participant with no prior decision, decide records
`approved` exactly when the action string equals `approve`, and records
`rejected` for every other action string whatsoever. -/
theorem C9_theorem (db : DB) (uid action : String) (admin_id : Int)
    (note : Option String) (now : String) (p : Participant)
    (hp : Storage.get_participant db uid = some p) (hd : p.decision = none) :
    (Storage.decide db uid action admin_id note now).map
        (fun r => r.2.decision) =
      .ok (some (if action == "approve" then "approved" else "rejected")) ∧
    (action ≠ "approve" →
      (Storage.decide db uid action admin_id note now).map
          (fun r => r.2.decision) = .ok (some "rejected")) := by
  have h := decide_ok_of_fresh db uid action admin_id note now p hp hd
  constructor
  · rw [h]
    rfl
  · intro hne
    rw [h]
    simp only [Except.map]
    simp [decideUpd, hne]

/-- Claim C9, witness: `approve` is recorded as `approved`, while
`Approve` (wrong case) and the empty string are both recorded as
`rejected`. -/
theorem C9_witness :
    (Storage.decide (mkDB [pFresh9]) "u6" "approve" 7 none "t8").map
        (fun r => r.2.decision) = .ok (some "approved") ∧
    (Storage.decide (mkDB [pFresh9]) "u6" "Approve" 7 none "t8").map
        (fun r => r.2.decision) = .ok (some "rejected") ∧
    (Storage.decide (mkDB [pFresh9]) "u6" "" 7 none "t8").map
        (fun r => r.2.decision) = .ok (some "rejected") :=
  ⟨(C9_theorem (mkDB [pFresh9]) "u6" "approve" 7 none "t8" pFresh9 rfl rfl).1,
   (C9_theorem (mkDB [pFresh9]) "u6" "Approve" 7 none "t8" pFresh9 rfl rfl).2
     (by decide),
   (C9_theorem (mkDB [pFresh9]) "u6" "" 7 none "t8" pFresh9 rfl rfl).2
     (by decide)⟩

/-- Claim C10: decide has no status precondition — on any existing
participant with no prior decision, whatever its current status (the
statement puts no constraint on it), decide succeeds and writes the
normalised terminal decision value directly into `status`. -/
theorem C10_theorem (db : DB) (uid action : String) (admin_id : Int)
    (note : Option String) (now : String) (p : Participant)
    (hp : Storage.get_participant db uid = some p) (hd : p.decision = none) :
    Storage.decide db uid action admin_id note now = .ok
      ({ db with participants := db.participants.map fun q =>
           if q.uid == uid then
             (decideUpd (if action == "approve" then "approved" else "rejected")
               admin_id note now q)
           else q },
       decideUpd (if action == "approve" then "approved" else "rejected")
         admin_id note now p) ∧
    (decideUpd (if action == "approve" then "approved" else "rejected")
       admin_id note now p).status =
      (if action == "approve" then "approved" else "rejected") :=
  ⟨decide_ok_of_fresh db uid action admin_id note now p hp hd, rfl⟩

/-- Claim C10, witness: deciding `approve` on `u6`, whose status is still
`registered` (no confirm, no promotion ever happened), succeeds and jumps
the status straight to `approved`. -/
theorem C10_witness :
    Storage.decide (mkDB [pFresh9]) "u6" "approve" 7 none "t8" = .ok
      ({ mkDB [pFresh9] with
         participants := [decideUpd "approved" 7 none "t8" pFresh9] },
       decideUpd "approved" 7 none "t8" pFresh9) ∧
    pFresh9.status = "registered" ∧
    (decideUpd "approved" 7 none "t8" pFresh9).status = "approved" := by
  have h := C10_theorem (mkDB [pFresh9]) "u6" "approve" 7 none "t8" pFresh9
    rfl rfl
  exact ⟨h.1, rfl, rfl⟩
